import Mathlib

/-!
Shallow embedding of the onboarding/subscription state-reconciliation flow of
the `relevant-app` repository: the onboarding gate decision functions, the
auth-callback session bootstrap handler, the plan-selection recorder, the
completion reconciler, and the trial-status reader, together with the
`user_preferences` row they all converge on.

Conventions of the embedding:
* The per-user `user_preferences` row is `PrefRow`; since every access is
  keyed by the single authenticated user's id, the store is modelled as
  `Option PrefRow` (the row, or not-found).
* Timestamps are `Nat` (an abstract clock value passed in for `new Date()`).
* Supabase upserts use merge semantics (`resolution=merge-duplicates`): on an
  existing row only the columns present in the payload are overwritten; on a
  missing row the remaining columns take the table defaults.
* JavaScript truthiness of nullable strings (`if (next)`, `!selectedPlan`,
  `hasCompletedOnboarding && selectedPlan`) is `jsTruthy`: null and the empty
  string are falsy.
* Routes are the literal path strings the code redirects to.
-/

/-- JavaScript truthiness of a nullable string: `null` and `""` are falsy. -/
def jsTruthy : Option String → Bool
  | none => false
  | some s => !(s == "")

/-- One row of the `user_preferences` table (the columns the onboarding flow
reads and writes). -/
structure PrefRow where
  has_completed_onboarding : Bool
  onboarding_step : Nat
  selected_plan_id : Option String
  onboarding_started_at : Option Nat
  onboarding_completed_at : Option Nat
  deriving Repr, DecidableEq

/-- Modelled from the spec: the `user_preferences` table DDL (its column
defaults) is not under `src/` — only the trigger function and RLS policies
are — so the defaults a bare insert receives are taken from the spec's data
model: `has_completed_onboarding` defaults to false, `onboarding_step`
defaults to 1, and `selected_plan_id` and both timestamps are nullable
(default null). -/
def defaultPrefRow : PrefRow :=
  { has_completed_onboarding := false
    onboarding_step := 1
    selected_plan_id := none
    onboarding_started_at := none
    onboarding_completed_at := none }

/-- The spec's UserPreferences invariant: a completed row has a selected plan
and a completion timestamp. -/
def prefInvariant (r : PrefRow) : Prop :=
  r.has_completed_onboarding = true →
    r.selected_plan_id.isSome = true ∧ r.onboarding_completed_at.isSome = true

instance (r : PrefRow) : Decidable (prefInvariant r) := by
  unfold prefInvariant; infer_instance

/-- `getDestination` from `src/hooks/useNavigation.ts`: the client navigation
guard's single source of truth for where the user should be.  `user` is the
authenticated user (id) from `useAuth`, `isSubscriber` is `useAuth`'s flag for
an active-or-trialing subscription. -/
def getDestination (user : Option String) (isSubscriber : Bool) : String :=
  if user.isNone then "/login"
  else if !isSubscriber then "/onboarding"
  else "/dashboard"

/-- The access check of `src/app/onboarding/page.tsx` (its two redirect
effects, once all loading flags have settled): no user redirects to login;
a user with a subscription, an in-progress trial, or completed onboarding
with a (truthy) selected plan is redirected to the dashboard; otherwise the
page does not redirect (`none`). -/
def onboardingPageRedirect (user : Option String) (hasCompletedOnboarding : Bool)
    (selectedPlan : Option String) (hasSubscription isInTrial : Bool) : Option String :=
  if user.isNone then some "/login"
  else
    let hasValidAccess := hasSubscription || isInTrial
    let hasCompletedOnboardingFlow := hasCompletedOnboarding && jsTruthy selectedPlan
    if hasValidAccess || hasCompletedOnboardingFlow then some "/dashboard"
    else none

/-- Outcome of the auth-callback route handler: the redirect it issues and the
state of the user's preferences row afterwards. -/
structure CallbackOutcome where
  redirect : String
  store : Option PrefRow
  deriving Repr, DecidableEq

/-- `GET` from `src/app/auth/callback/route.ts` (the session bootstrap
handler).  `code` and `next` are the query parameters; `exchangeOk` is whether
`exchangeCodeForSession` succeeds; `user` is the authenticated user of the
exchanged session; `insertOk` is whether the lazy insert of a missing
preferences row succeeds; `store` is the user's preferences row before the
call (`none` is the PGRST116 not-found condition of `.single()`; read errors
other than not-found are not modelled).  The handler never reads subscription
or trial state: `needsOnboarding` is computed from `has_completed_onboarding`
alone. -/
def authCallbackGET (code : Option String) (exchangeOk : Bool) (user : Option String)
    (next : Option String) (insertOk : Bool) (store : Option PrefRow) : CallbackOutcome :=
  if jsTruthy code then
    if !exchangeOk then { redirect := "/login?error=auth-failed", store := store }
    else
      match user with
      | some _ =>
        let store' : Option PrefRow :=
          match store with
          | some row => some row
          | none => if insertOk then some { defaultPrefRow with has_completed_onboarding := false }
                    else none
        let needsOnboarding : Bool :=
          match store' with
          | some row => !row.has_completed_onboarding
          | none => true
        if jsTruthy next then { redirect := next.getD "", store := store' }
        else { redirect := if needsOnboarding then "/onboarding" else "/dashboard",
               store := store' }
      | none => { redirect := "/dashboard", store := store }
  else { redirect := "/login", store := store }

/-- The plan-selection upsert of `handlePlanSelect` in
`OnboardingPricing` (`src/unnamed/part_001`): payload
`{ user_id, selected_plan_id: tier.id, onboarding_step: 2,
onboarding_started_at: now }`, merged over the existing row or the table
defaults. -/
def planSelectUpsert (planId : String) (now : Nat) (store : Option PrefRow) : PrefRow :=
  match store with
  | some r => { r with selected_plan_id := some planId, onboarding_step := 2,
                       onboarding_started_at := some now }
  | none => { defaultPrefRow with selected_plan_id := some planId, onboarding_step := 2,
                                  onboarding_started_at := some now }

/-- The upsert of `completeOnboarding` in `src/hooks/useOnboarding.ts`:
payload `{ user_id, has_completed_onboarding: true, selected_plan_id:
selectedPlan, onboarding_completed_at: now }`. -/
def completeOnboardingUpsert (plan : String) (now : Nat) (store : Option PrefRow) : PrefRow :=
  match store with
  | some r => { r with has_completed_onboarding := true, selected_plan_id := some plan,
                       onboarding_completed_at := some now }
  | none => { defaultPrefRow with has_completed_onboarding := true,
                                  selected_plan_id := some plan,
                                  onboarding_completed_at := some now }

/-- `completeOnboarding` from `src/hooks/useOnboarding.ts` including its
guard: `if (!user?.id || !selectedPlan) return;` — no write happens without a
user and a truthy selected plan. -/
def completeOnboarding (user : Option String) (selectedPlan : Option String)
    (now : Nat) (store : Option PrefRow) : Option PrefRow :=
  if !(jsTruthy user) || !(jsTruthy selectedPlan) then store
  else some (completeOnboardingUpsert (selectedPlan.getD "") now store)

/-- The completion reconciler's upsert in
`src/app/onboarding/success/page.tsx`: payload `{ user_id,
has_completed_onboarding: true, onboarding_completed_at: new Date() }` —
note it does not mention `selected_plan_id`. -/
def reconcilerUpsert (now : Nat) (store : Option PrefRow) : PrefRow :=
  match store with
  | some r => { r with has_completed_onboarding := true,
                       onboarding_completed_at := some now }
  | none => { defaultPrefRow with has_completed_onboarding := true,
                                  onboarding_completed_at := some now }

/-- Outcome of the best-effort Stripe subscription resync `fetch` in the
success page: HTTP ok, HTTP failure status, or a thrown/rejected fetch. -/
inductive SyncOutcome where
  | ok
  | httpError
  | threw
  deriving Repr, DecidableEq

/-- `OnboardingSuccessPage` from `src/app/onboarding/success/page.tsx` (the
completion reconciler): unauthenticated sessions are redirected to login;
otherwise the preferences upsert is attempted (`upsertError` true means it
returned an error and the row is unchanged), the subscription resync outcome
is logged and swallowed, and the page redirects to the dashboard.  Returns
the issued redirect and the resulting store. -/
def onboardingSuccessPage (user : Option String) (upsertError : Bool)
    (sync : SyncOutcome) (now : Nat) (store : Option PrefRow) : String × Option PrefRow :=
  match user, sync with
  | none, _ => ("/login", store)
  | some _, _ =>
    let store' := if upsertError then store else some (reconcilerUpsert now store)
    ("/dashboard", store')

/-- A pricing tier as `handlePlanSelect` consumes it (`src/unnamed/part_001`):
the identifier, display name, and the Stripe Payment Link — `none` for the
"custom/contact sales" pseudo-plan (presentational fields are omitted). -/
structure Tier where
  id : String
  name : String
  stripePaymentLink : Option String
  deriving Repr, DecidableEq

/-- The pricing catalog of `OnboardingPricing` (`src/unnamed/part_001`),
parameterized by the two payment-link environment variables; the custom
pseudo-plan has `stripePaymentLink: null`. -/
def pricingTiers (proLink entLink : String) : List Tier :=
  [ { id := "pro", name := "Pro", stripePaymentLink := some proLink },
    { id := "enterprise", name := "Enterprise", stripePaymentLink := some entLink },
    { id := "custom", name := "Custom", stripePaymentLink := none } ]

/-- The custom/contact-sales pseudo-plan of the catalog. -/
def customTier : Tier :=
  { id := "custom", name := "Custom", stripePaymentLink := none }

/-- A Stripe Payment Link URL as `handlePlanSelect` builds it: the tier's
link with `prefilled_email` and `client_reference_id` query parameters set. -/
structure PaymentUrl where
  base : String
  prefilled_email : String
  client_reference_id : String
  deriving Repr, DecidableEq

/-- Where `handlePlanSelect` sends the browser: an internal route
(`router.push`) or the external payment provider (`window.location.href`). -/
inductive Redirect where
  | path (p : String)
  | payment (u : PaymentUrl)
  deriving Repr, DecidableEq

/-- Outcome of one `handlePlanSelect` invocation: the redirect it issues,
whether a `user_preferences` upsert was attempted, and the resulting store. -/
structure PlanSelectResult where
  redirect : Redirect
  upsertAttempted : Bool
  store : Option PrefRow
  deriving Repr, DecidableEq

/-- `handlePlanSelect` from `OnboardingPricing` (`src/unnamed/part_001`): a
tier without a payment link short-circuits to `/contact-sales` with no
database access; otherwise the selection upsert is attempted (`upsertOk`
false means it returned an error, which is logged and the row left
unchanged) and the browser is sent to the payment link carrying the user's
email and id. -/
def handlePlanSelect (tier : Tier) (userId userEmail : String) (now : Nat)
    (upsertOk : Bool) (store : Option PrefRow) : PlanSelectResult :=
  match tier.stripePaymentLink with
  | none => { redirect := Redirect.path "/contact-sales", upsertAttempted := false,
              store := store }
  | some link =>
      { redirect := Redirect.payment
          { base := link, prefilled_email := userEmail, client_reference_id := userId },
        upsertAttempted := true,
        store := if upsertOk then some (planSelectUpsert tier.id now store) else store }

/-- A row of the `subscriptions` table as `useTrialStatus` reads it. -/
structure SubRow where
  status : String
  deriving Repr, DecidableEq

/-- A row of the `user_trials` table as `useTrialStatus` reads it. -/
structure TrialRow where
  trial_end_time : Nat
  is_trial_used : Bool
  deriving Repr, DecidableEq

/-- The state `useTrialStatus` exposes. -/
structure TrialStatus where
  isInTrial : Bool
  trialEndTime : Option Nat
  hasSubscription : Bool
  deriving Repr, DecidableEq

/-- Outcome of one `maybeSingle()` supabase query as the hook sees it:
data returned (possibly null), an error object returned with the given code
(data null, the awaited promise still resolves), or the await itself
throwing/rejecting. -/
inductive QueryOutcome (α : Type) where
  | ok : Option α → QueryOutcome α
  | err : String → QueryOutcome α
  | thrown : QueryOutcome α
  deriving Repr, DecidableEq

/-- The hook's initial and error-fallback state:
`{ isInTrial: false, trialEndTime: null, hasSubscription: false }`. -/
def defaultTrialStatus : TrialStatus :=
  { isInTrial := false, trialEndTime := none, hasSubscription := false }

/-- `checkTrialStatus` inside `useTrialStatus` (`src/unnamed/part_006`).
With no user the initial default state is kept.  The subscription query
destructures only `data`, so a returned error object is discarded and
treated as "no subscription row"; an active or trialing status short-circuits
to `hasSubscription := true`.  The trial query's returned error is re-thrown
unless its code is PGRST116 (not found); a thrown error from either await
lands in the catch, which sets the default state.  A user with no (valid)
subscription and no trial record is reported as in trial with a null end
time; an existing trial record is in trial iff unused and not yet ended. -/
def checkTrialStatus (user : Option String) (subRes : QueryOutcome SubRow)
    (trialRes : QueryOutcome TrialRow) (now : Nat) : TrialStatus :=
  match user with
  | none => defaultTrialStatus
  | some _ =>
    match subRes with
    | QueryOutcome.thrown => defaultTrialStatus
    | _ =>
      let subscription : Option SubRow :=
        match subRes with
        | QueryOutcome.ok d => d
        | _ => none
      if subscription.elim false (fun s => s.status == "active" || s.status == "trialing") then
        { isInTrial := false, trialEndTime := none, hasSubscription := true }
      else
        match trialRes with
        | QueryOutcome.thrown => defaultTrialStatus
        | QueryOutcome.err c =>
            if c == "PGRST116" then
              { isInTrial := true, trialEndTime := none, hasSubscription := false }
            else defaultTrialStatus
        | QueryOutcome.ok (some t) =>
            { isInTrial := !t.is_trial_used && decide (now < t.trial_end_time),
              trialEndTime := some t.trial_end_time, hasSubscription := false }
        | QueryOutcome.ok none =>
            { isInTrial := true, trialEndTime := none, hasSubscription := false }

/-- Claim C1, counterexample: for an authenticated user with no
active-or-trialing subscription (`isSubscriber = false`) who is in an
in-progress trial, the claim says every entry point computes DASHBOARD; but
the navigation guard's `getDestination` ignores trial entirely and computes
"/onboarding" (the onboarding page's check, shown alongside at the same
state `isInTrial = true`, does compute "/dashboard"). -/
theorem trial_user_nav_guard_counterexample :
    onboardingPageRedirect (some "user-1") false none false true = some "/dashboard"
    ∧ getDestination (some "user-1") false = "/onboarding"
    ∧ ("/onboarding" : String) ≠ "/dashboard" := by decide

/-- Claim C1, amended: for every authenticated user with no
active-or-trialing subscription who is in an in-progress trial, the
onboarding page's access check redirects to "/dashboard", but the client
navigation guard's `getDestination` computes "/onboarding" — the two entry
points disagree, because `getDestination` ignores trial state. -/
theorem trial_user_entry_points_diverge :
    ∀ (uid : String) (completed : Bool) (plan : Option String),
      onboardingPageRedirect (some uid) completed plan false true = some "/dashboard"
      ∧ getDestination (some uid) false = "/onboarding" := by
  intro uid completed plan
  exact ⟨by simp [onboardingPageRedirect], by simp [getDestination]⟩

/-- Claim C2, counterexample: the completion reconciler's upsert applied to
a fresh preferences row (as the bootstrap creates it) sets
`has_completed_onboarding = true` while leaving `selected_plan_id` null, so
the UserPreferences invariant does not hold afterwards. -/
theorem reconciler_fresh_row_invariant_counterexample :
    ¬ prefInvariant (reconcilerUpsert 5 (some defaultPrefRow)) := by decide

/-- Claim C2, amended: the plan-selection upsert preserves the invariant,
the `completeOnboarding` upsert establishes it outright, and the
reconciler's upsert preserves it only on rows that already carry a selected
plan; on a fresh row the reconciler yields `has_completed_onboarding = true`
with `selected_plan_id` still null, breaking the invariant. -/
theorem pref_invariant_preservation_amended :
    ∀ (r : PrefRow) (plan : String) (t : Nat),
      (prefInvariant r → prefInvariant (planSelectUpsert plan t (some r)))
      ∧ prefInvariant (completeOnboardingUpsert plan t (some r))
      ∧ (r.selected_plan_id.isSome = true → prefInvariant (reconcilerUpsert t (some r)))
      ∧ (reconcilerUpsert t (some defaultPrefRow)).has_completed_onboarding = true
      ∧ (reconcilerUpsert t (some defaultPrefRow)).selected_plan_id = none := by
  intro r plan t
  refine ⟨?_, ?_, ?_, rfl, rfl⟩
  · intro h hc
    exact ⟨rfl, (h hc).2⟩
  · intro _
    exact ⟨rfl, rfl⟩
  · intro hs _
    exact ⟨hs, rfl⟩

/-- Claim C2, witness: the amended preservation theorem applied at concrete
inputs — a fresh row through plan selection, then the reconciler on the
resulting row (which has a selected plan). -/
theorem pref_invariant_preservation_amended_witness :
    prefInvariant (planSelectUpsert "pro" 3 (some defaultPrefRow))
    ∧ prefInvariant (reconcilerUpsert 4 (some (planSelectUpsert "pro" 3 (some defaultPrefRow)))) :=
  ⟨(pref_invariant_preservation_amended defaultPrefRow "pro" 3).1 (by decide),
   (pref_invariant_preservation_amended (planSelectUpsert "pro" 3 (some defaultPrefRow))
      "pro" 4).2.2.1 (by decide)⟩

/-- Claim C3, counterexample: for an authenticated user whose subscription
is active (`isSubscriber = true` for the guard) but whose row has
`has_completed_onboarding = false`, the auth callback — which reads only
`has_completed_onboarding` and never the subscription — redirects to
"/onboarding", while `getDestination` computes "/dashboard"; the claim says
the callback routes such a user to the dashboard. -/
theorem active_subscriber_callback_counterexample :
    (authCallbackGET (some "code-1") true (some "user-1") none true
        (some defaultPrefRow)).redirect = "/onboarding"
    ∧ getDestination (some "user-1") true = "/dashboard"
    ∧ ("/onboarding" : String) ≠ "/dashboard" := by decide

/-- Claim C3, amended: `getDestination` does route a user with an
active-or-trialing subscription to "/dashboard" regardless of onboarding
bookkeeping, but the auth callback routes on `has_completed_onboarding`
alone (it takes no subscription input at all), so with
`has_completed_onboarding = false` it redirects to "/onboarding". -/
theorem active_subscriber_routing_amended :
    ∀ (uid : String) (r : PrefRow),
      getDestination (some uid) true = "/dashboard"
      ∧ (r.has_completed_onboarding = false →
          (authCallbackGET (some "code-1") true (some uid) none true (some r)).redirect
            = "/onboarding") := by
  intro uid r
  refine ⟨by simp [getDestination], ?_⟩
  intro hr
  simp [authCallbackGET, jsTruthy, hr]

/-- Claim C3, witness: the amended routing theorem at a concrete user and
fresh row. -/
theorem active_subscriber_routing_amended_witness :
    (authCallbackGET (some "code-1") true (some "user-1") none true
        (some defaultPrefRow)).redirect = "/onboarding" :=
  (active_subscriber_routing_amended "user-1" defaultPrefRow).2 rfl

/-- Claim C4, counterexample: running the completion reconciler twice for
the same user, at clock values 1 and then 2, leaves
`has_completed_onboarding = true` but writes `onboarding_completed_at = 2`
the second time where the first wrote 1 — the second invocation is not a
no-op write of the same values and the two timestamps diverge. -/
theorem reconciler_twice_counterexample :
    ((onboardingSuccessPage (some "user-1") false SyncOutcome.ok 2
        (onboardingSuccessPage (some "user-1") false SyncOutcome.ok 1
          (some defaultPrefRow)).2).2
      = some { defaultPrefRow with has_completed_onboarding := true,
                                   onboarding_completed_at := some 2 })
    ∧ ((onboardingSuccessPage (some "user-1") false SyncOutcome.ok 1
          (some defaultPrefRow)).2
      = some { defaultPrefRow with has_completed_onboarding := true,
                                   onboarding_completed_at := some 1 })
    ∧ (some (2 : Nat) ≠ some 1) := by decide

/-- Claim C4, amended: two successive reconciler invocations leave
`has_completed_onboarding = true`, but the second overwrites
`onboarding_completed_at` with its own invocation time, so the two writes
coincide only when the two invocations carry the same timestamp. -/
theorem reconciler_idempotence_amended :
    ∀ (uid : String) (o : SyncOutcome) (t1 t2 : Nat) (store : Option PrefRow),
      (onboardingSuccessPage (some uid) false o t1 store).2
        = some (reconcilerUpsert t1 store)
      ∧ (reconcilerUpsert t2 (some (reconcilerUpsert t1 store))).has_completed_onboarding
          = true
      ∧ (reconcilerUpsert t2 (some (reconcilerUpsert t1 store))).onboarding_completed_at
          = some t2
      ∧ (t1 = t2 →
          reconcilerUpsert t2 (some (reconcilerUpsert t1 store))
            = reconcilerUpsert t1 store) := by
  intro uid o t1 t2 store
  refine ⟨rfl, rfl, rfl, ?_⟩
  rintro rfl
  cases store <;> rfl

/-- Claim C4, witness: the amended idempotence theorem at equal timestamps
on a fresh row. -/
theorem reconciler_idempotence_amended_witness :
    reconcilerUpsert 7 (some (reconcilerUpsert 7 (some defaultPrefRow)))
      = reconcilerUpsert 7 (some defaultPrefRow) :=
  (reconciler_idempotence_amended "user-1" SyncOutcome.ok 7 7 (some defaultPrefRow)).2.2.2 rfl

/-- Claim C5, counterexample: an authenticated user with no subscription,
not in trial, with completed onboarding and selected plan "pro": the
onboarding page's check redirects to "/dashboard" as claimed, but the
navigation guard's `getDestination` computes "/onboarding" — so the claim's
"every entry point" fails. -/
theorem completed_user_nav_guard_counterexample :
    onboardingPageRedirect (some "user-2") true (some "pro") false false = some "/dashboard"
    ∧ getDestination (some "user-2") false = "/onboarding"
    ∧ ("/onboarding" : String) ≠ "/dashboard" := by decide

/-- Claim C5, amended: for every authenticated user with no
active-or-trialing subscription, not in trial, with completed onboarding
and a (nonempty) selected plan, the onboarding page's access check
redirects to "/dashboard", but the navigation guard's `getDestination`
computes "/onboarding" — it ignores onboarding completion. -/
theorem completed_user_entry_points_diverge :
    ∀ (uid plan : String), plan ≠ "" →
      onboardingPageRedirect (some uid) true (some plan) false false = some "/dashboard"
      ∧ getDestination (some uid) false = "/onboarding" := by
  intro uid plan hp
  constructor
  · simp [onboardingPageRedirect, jsTruthy, hp]
  · simp [getDestination]

/-- Claim C5, witness: the amended divergence theorem at user "user-2" and
plan "pro". -/
theorem completed_user_entry_points_diverge_witness :
    onboardingPageRedirect (some "user-2") true (some "pro") false false = some "/dashboard"
    ∧ getDestination (some "user-2") false = "/onboarding" :=
  completed_user_entry_points_diverge "user-2" "pro" (by decide)

/-- Claim C6 (confirmed; the `onboarding_step` default is spec-modelled, see
`defaultPrefRow`): the auth callback invoked with a (truthy) code, a
successful exchange, an authenticated user, no `next` parameter and no
existing preferences row creates exactly one row with
`has_completed_onboarding = false` and `onboarding_step = 1` (all other
columns at their null defaults) and redirects to "/onboarding". -/
theorem callback_lazy_creation :
    ∀ (code uid : String), code ≠ "" →
      authCallbackGET (some code) true (some uid) none true none
        = { redirect := "/onboarding",
            store := some { has_completed_onboarding := false, onboarding_step := 1,
                            selected_plan_id := none, onboarding_started_at := none,
                            onboarding_completed_at := none } } := by
  intro code uid h
  simp [authCallbackGET, jsTruthy, h, defaultPrefRow]

/-- Claim C6, witness: lazy creation at a concrete code and user. -/
theorem callback_lazy_creation_witness :
    authCallbackGET (some "code-1") true (some "user-1") none true none
      = { redirect := "/onboarding",
          store := some { has_completed_onboarding := false, onboarding_step := 1,
                          selected_plan_id := none, onboarding_started_at := none,
                          onboarding_completed_at := none } } :=
  callback_lazy_creation "code-1" "user-1" (by decide)

/-- Claim C7 (confirmed): selecting the "custom" pseudo-plan — the catalog
member with no payment link — never reaches the payment provider and never
attempts a `user_preferences` write: the handler short-circuits to the
"/contact-sales" route with the store unchanged, for every user, clock and
upsert outcome. -/
theorem custom_plan_contact_sales :
    ∀ (proLink entLink userId userEmail : String) (now : Nat) (upsertOk : Bool)
      (store : Option PrefRow),
      customTier ∈ pricingTiers proLink entLink
      ∧ handlePlanSelect customTier userId userEmail now upsertOk store
          = { redirect := Redirect.path "/contact-sales", upsertAttempted := false,
              store := store } := by
  intro proLink entLink userId userEmail now upsertOk store
  exact ⟨List.Mem.tail _ (List.Mem.tail _ (List.Mem.head _)), rfl⟩

/-- Claim C8 (confirmed): selecting a real plan (one with a payment link)
when the preferences upsert fails (`upsertOk = false`, the error is logged)
still redirects to the external payment provider, and the redirect URL
carries the user's email as `prefilled_email` and the user id as
`client_reference_id`; the store is left unchanged by the failed write. -/
theorem plan_select_redirect_despite_upsert_failure :
    ∀ (tierId tierName link userId userEmail : String) (now : Nat)
      (store : Option PrefRow),
      handlePlanSelect { id := tierId, name := tierName, stripePaymentLink := some link }
          userId userEmail now false store
        = { redirect := Redirect.payment
              { base := link, prefilled_email := userEmail,
                client_reference_id := userId },
            upsertAttempted := true, store := store } := by
  intro tierId tierName link userId userEmail now store
  rfl

/-- Claim C9 (confirmed): for every authenticated user, the completion
reconciler redirects to "/dashboard" unconditionally — whatever the outcome
of the preferences upsert and of the subscription resync (HTTP ok, HTTP
error, or a thrown fetch). -/
theorem reconciler_always_dashboard :
    ∀ (uid : String) (upsertError : Bool) (o : SyncOutcome) (t : Nat)
      (store : Option PrefRow),
      (onboardingSuccessPage (some uid) upsertError o t store).1 = "/dashboard" := by
  intro uid upsertError o t store
  rfl

/-- Claim C10, counterexample: the subscription query returning an error
object (here code "08006") is discarded — only `data` is destructured — so
with no trial record the hook reports `isInTrial = true`, not the default
state `isInTrial = false, hasSubscription = false` the claim promises for
"any error while reading subscription or trial state". -/
theorem trial_status_sub_error_counterexample :
    checkTrialStatus (some "user-1") (QueryOutcome.err "08006") (QueryOutcome.ok none) 0
      = { isInTrial := true, trialEndTime := none, hasSubscription := false }
    ∧ ({ isInTrial := true, trialEndTime := none, hasSubscription := false } : TrialStatus)
        ≠ defaultTrialStatus := by decide

/-- Claim C10, amended: with no subscription row and no trial record the
hook reports in-trial with a null end time; a thrown read of either table,
or a trial-query error other than not-found (PGRST116), yields the default
state; but a subscription-query error returned in the result object is
ignored (treated as no subscription row) and with no trial record still
yields `isInTrial = true` rather than the default. -/
theorem trial_status_error_handling_amended :
    ∀ (uid : String) (t : Nat) (tr : QueryOutcome TrialRow) (c : String),
      checkTrialStatus (some uid) (QueryOutcome.ok none) (QueryOutcome.ok none) t
        = { isInTrial := true, trialEndTime := none, hasSubscription := false }
      ∧ checkTrialStatus (some uid) QueryOutcome.thrown tr t = defaultTrialStatus
      ∧ checkTrialStatus (some uid) (QueryOutcome.ok none) QueryOutcome.thrown t
          = defaultTrialStatus
      ∧ (c ≠ "PGRST116" →
          checkTrialStatus (some uid) (QueryOutcome.ok none) (QueryOutcome.err c) t
            = defaultTrialStatus)
      ∧ checkTrialStatus (some uid) (QueryOutcome.err "08006") (QueryOutcome.ok none) t
          = { isInTrial := true, trialEndTime := none, hasSubscription := false } := by
  intro uid t tr c
  refine ⟨rfl, rfl, rfl, ?_, rfl⟩
  intro hc
  simp [checkTrialStatus, hc]

/-- Claim C10, witness: the amended error-handling theorem with a concrete
non-not-found trial error code. -/
theorem trial_status_error_handling_amended_witness :
    checkTrialStatus (some "user-1") (QueryOutcome.ok none) (QueryOutcome.err "08006") 0
      = defaultTrialStatus :=
  (trial_status_error_handling_amended "user-1" 0 (QueryOutcome.ok none) "08006").2.2.2.1
    (by decide)
